import Mathlib

/-!
# Verification of the arglib-ui frontend state logic

Shallow embedding of the view-state handlers of the arglib-ui repository
(`src/App.tsx`, `src/api/client.ts`).  JavaScript objects are modelled as
ordered association lists of string keys (JS object keys are unique and
ordered; spread-update replaces in place, otherwise appends), JSON values
as an inductive `Json` type, JS numbers as rationals extended with a NaN
point, and the asynchronous handlers as pure state transformers that take
the outcome of each HTTP call as an explicit argument (`Except` value) and
return the successor state together with the list of HTTP calls issued and
whether the handler itself completed or propagated an exception.
-/

namespace ArglibUI

/-- JSON values, as held in the browser after `JSON.parse` (no `undefined`,
no NaN: server responses and files are genuine JSON).  Objects keep key
order, mirroring JS objects. -/
inductive Json where
  | null : Json
  | bool (b : Bool) : Json
  | num (q : ℚ) : Json
  | str (s : String) : Json
  | arr (elems : List Json) : Json
  | obj (fields : List (String × Json)) : Json

/-- First-match association-list lookup: JS property access `o[k]` on an
object (keys unique), `none` standing for `undefined`. -/
def lookupField {α : Type} : List (String × α) → String → Option α
  | [], _ => none
  | (k, v) :: rest, key => if k = key then some v else lookupField rest key

/-- JS property access on an arbitrary JSON value: only objects have
(string-keyed) own properties here; any other receiver yields `undefined`. -/
def jget : Json → String → Option Json
  | Json.obj fields, key => lookupField fields key
  | _, _ => none

/-- JS truthiness of a JSON value (`null`, `false`, `0`, `""` are falsy;
every object and array, even empty, is truthy). -/
def truthy : Json → Bool
  | Json.null => false
  | Json.bool b => b
  | Json.num q => q != 0
  | Json.str s => s != ""
  | Json.arr _ => true
  | Json.obj _ => true

/-- Truthiness of a possibly-absent property (`undefined` is falsy). -/
def truthyOpt : Option Json → Bool
  | none => false
  | some v => truthy v

/-- Nullish-aware property read: a property that is absent or holds `null`
behaves as nullish for the `??` chains in the element projector. -/
def jfieldNN (fields : List (String × Json)) (key : String) : Option Json :=
  match lookupField fields key with
  | some Json.null => none
  | other => other

/-- A JS `number`: a finite value (modelled as a rational, which covers
every finite IEEE double exactly) or NaN.  Infinities do not arise in the
modelled code paths. -/
inductive JsNumber where
  | nan : JsNumber
  | val (q : ℚ) : JsNumber

/-- JS `>=` on numbers: false whenever either side is NaN. -/
def jsGe : JsNumber → ℚ → Bool
  | JsNumber.nan, _ => false
  | JsNumber.val q, c => decide (c ≤ q)

/-- JS `<=` on numbers: false whenever either side is NaN. -/
def jsLe : JsNumber → ℚ → Bool
  | JsNumber.nan, _ => false
  | JsNumber.val q, c => decide (q ≤ c)

/-- The colour/label record returned by `getScoreClassification`
(`src/App.tsx`). -/
structure Classification where
  label : String
  color : String
  bgColor : String
  borderColor : String
deriving DecidableEq, Repr

/-- `getScoreClassification` (`src/App.tsx` lines 478-525): the chain of
closed-interval band tests, falling through to the "Unknown" record. -/
def getScoreClassification (credibilityScore : JsNumber) : Classification :=
  if jsGe credibilityScore (-1) && jsLe credibilityScore (-6/10) then
    { label := "Very Low Confidence", color := "#dc2626",
      bgColor := "#fef2f2", borderColor := "#fecaca" }
  else if jsGe credibilityScore (-59/100) && jsLe credibilityScore (-2/10) then
    { label := "Low Confidence", color := "#ea580c",
      bgColor := "#fff7ed", borderColor := "#fed7aa" }
  else if jsGe credibilityScore (-19/100) && jsLe credibilityScore (19/100) then
    { label := "Neutral / Unknown", color := "#6b7280",
      bgColor := "#f9fafb", borderColor := "#d1d5db" }
  else if jsGe credibilityScore (2/10) && jsLe credibilityScore (59/100) then
    { label := "High Confidence", color := "#16a34a",
      bgColor := "#f0fdf4", borderColor := "#bbf7d0" }
  else if jsGe credibilityScore (6/10) && jsLe credibilityScore 1 then
    { label := "Very High Confidence", color := "#15803d",
      bgColor := "#ecfdf5", borderColor := "#86efac" }
  else
    { label := "Unknown", color := "#6b7280",
      bgColor := "#f9fafb", borderColor := "#d1d5db" }

/-- JS `String.prototype.trim()`: strips leading and trailing whitespace
(computable by structural recursion over the character list, unlike
`String.trim`). -/
def jsTrim (s : String) : String :=
  String.mk
    (((s.data.dropWhile Char.isWhitespace).reverse.dropWhile
      Char.isWhitespace).reverse)

/-- Digit-string value (caller has checked every char is a digit). -/
def digitsToNat (cs : List Char) : Nat :=
  cs.foldl (fun acc c => acc * 10 + (c.toNat - 48)) 0

/-- JS `Number(string)` on the plain decimal strings that occur in unit
metadata: trimmed empty string is `0`, optional sign, decimal digits with
an optional fractional part; anything else is NaN.  (The exotic `Number`
forms — exponents, hex, `Infinity` — do not arise from the server's JSON
scores and are mapped to NaN here.) -/
def jsStringToNumber (s : String) : JsNumber :=
  let t := jsTrim s
  if t.data.isEmpty then JsNumber.val 0
  else
    let signBody : ℚ × List Char :=
      match t.data with
      | c :: cs =>
        if c == '-' then (-1, cs) else if c == '+' then (1, cs) else (1, c :: cs)
      | [] => (1, [])
    let sgn := signBody.1
    let body := signBody.2
    let intPart := body.takeWhile Char.isDigit
    let rest := body.dropWhile Char.isDigit
    match rest with
    | [] =>
      if intPart.isEmpty then JsNumber.nan
      else JsNumber.val (sgn * (digitsToNat intPart : ℚ))
    | c :: frac =>
      if c == '.' && frac.all Char.isDigit && (!intPart.isEmpty || !frac.isEmpty) then
        JsNumber.val
          (sgn * ((digitsToNat intPart : ℚ) +
            (digitsToNat frac : ℚ) / ((10 : ℚ) ^ frac.length)))
      else JsNumber.nan

/-- JS `x.toFixed(2)` on the finite scores that reach edge labels,
modelled as rounding to the nearest hundredth. -/
def toFixed2 (q : ℚ) : String :=
  let n : ℤ := round (q * 100)
  let sign := if n < 0 then "-" else ""
  let m := n.natAbs
  sign ++ toString (m / 100) ++ "." ++ (if m % 100 < 10 then "0" else "") ++
    toString (m % 100)

/-- A unit (claim) as typed in `App.tsx`: id, free text, optional type tag,
optional attached evidence-card ids, optional metadata bag. -/
structure UnitData where
  id : String
  text : String
  type : Option String := none
  evidence_ids : Option (List String) := none
  metadata : Option (List (String × Json)) := none

/-- A relation (edge): source unit id, destination unit id, kind tag,
optional numeric weight, optional metadata (read by the projector). -/
structure Relation where
  src : String
  dst : String
  kind : String
  weight : Option ℚ := none
  metadata : Option (List (String × Json)) := none

/-- The `GraphData` shape of `App.tsx`: units as an ordered string-keyed
object, relations as an array, plus optional auxiliary collections.  The
optional `metadata` field is carried by mining results. -/
structure GraphData where
  units : List (String × UnitData)
  relations : List Relation
  evidence_cards : Option (List (String × Json)) := none
  supporting_documents : Option (List (String × Json)) := none
  metadata : Option Json := none

/-- Nullish-aware property read on a JSON value (`v?.k ?? fallback`
chains: an absent property or one holding `null` falls through). -/
def jgetNN (v : Json) (key : String) : Option Json :=
  match jget v key with
  | some Json.null => none
  | other => other

/-- The node descriptor produced by the `elements` projector for one unit. -/
structure NodeData where
  id : String
  label : String
  scoreBadge : Option Classification
  propagatedScore : Option ℚ
  width : Nat
  height : Nat

/-- The edge descriptor produced by the `elements` projector for one
relation. -/
structure EdgeData where
  id : String
  source : String
  target : String
  label : String
  kind : String
  validationScore : Option ℚ

/-- A projected element: either a node or an edge descriptor. -/
inductive Element where
  | node (data : NodeData) : Element
  | edge (data : EdgeData) : Element

/-- The per-unit body of the `elements` useMemo (`App.tsx` lines 555-612):
score extraction from the metadata bag, badge selection, and display
dimensions from the text length. -/
def nodeFor (unit : UnitData) : NodeData :=
  let text := unit.text
  let metadata := unit.metadata.getD []
  let rawScore : Option Json :=
    jfieldNN metadata "claim_credibility_propagated" <|>
    jfieldNN metadata "claim_credibility" <|>
    jfieldNN metadata "claim_credibility_score" <|>
    jfieldNN metadata "llm_confidence" <|>
    jfieldNN metadata "llm_confidence_score" <|>
    ((jfieldNN metadata "claim_credibility_result").bind fun v => jgetNN v "score") <|>
    ((jfieldNN metadata "llm_confidence_result").bind fun v => jgetNN v "score")
  let numericScore : Option JsNumber :=
    match rawScore with
    | some (Json.num q) => some (JsNumber.val q)
    | some (Json.str s) => some (jsStringToNumber s)
    | _ => none
  let score : Option ℚ :=
    match numericScore with
    | some (JsNumber.val q) => some q
    | _ => none
  let propagatedScore : Option ℚ :=
    match lookupField metadata "claim_credibility_propagated" with
    | some (Json.num q) => some q
    | _ => none
  let rawLabel : Option Json :=
    jfieldNN metadata "claim_credibility_label" <|>
    jfieldNN metadata "llm_confidence_label"
  let scoreBadge : Option Classification :=
    match rawLabel with
    | some (Json.str s) =>
      if jsTrim s != "" then
        some { label := s, color := "#166534", bgColor := "#f0fdf4",
               borderColor := "#bbf7d0" }
      else
        score.map fun q => getScoreClassification (JsNumber.val q)
    | _ => score.map fun q => getScoreClassification (JsNumber.val q)
  let maxChars := 26
  let lines := max 1 ((text.length + (maxChars - 1)) / maxChars)
  let width := min 300 (max 160 (maxChars * 7))
  let height := min 140 (30 + lines * 16)
  { id := unit.id, label := text, scoreBadge := scoreBadge,
    propagatedScore := propagatedScore, width := width, height := height }

/-- The per-relation body of the `elements` useMemo (`App.tsx` lines
613-638): validation score fallback to weight, label synthesis, positional
edge id. -/
def edgeFor (index : Nat) (rel : Relation) : EdgeData :=
  let metadata := rel.metadata.getD []
  let vScore : Option ℚ :=
    match lookupField metadata "llm_validation" with
    | some v =>
      if truthy v then
        match jget v "score" with
        | some (Json.num q) => some q
        | _ => none
      else none
    | none => none
  let validationScore : Option ℚ :=
    match vScore with
    | some q => some q
    | none => rel.weight
  let label :=
    match validationScore with
    | some q => rel.kind ++ " " ++ toFixed2 q
    | none => rel.kind
  { id := "e" ++ toString index, source := rel.src, target := rel.dst,
    label := label, kind := rel.kind, validationScore := validationScore }

/-- The `elements` projector (`App.tsx` lines 551-640): empty when no
graph is loaded, otherwise one node descriptor per unit value followed by
one edge descriptor per relation, the edge id synthesized from the array
index. -/
def elements (graph : Option GraphData) : List Element :=
  match graph with
  | none => []
  | some g =>
    (g.units.map fun kv => Element.node (nodeFor kv.2)) ++
    (g.relations.enum.map fun p => Element.edge (edgeFor p.1 p.2))

/-- JS object spread-update `{...o, [k]: v}` on an association list with
unique keys: an existing key keeps its position and gets the new value; a
fresh key is appended. -/
def jsObjectSet {α : Type} : List (String × α) → String → α → List (String × α)
  | [], key, v => [(key, v)]
  | (k, w) :: rest, key, v =>
    if k = key then (key, v) :: rest else (k, w) :: jsObjectSet rest key v

/-- JS `delete o[k]` on an association list (keys are unique in a JS
object, so removing every occurrence coincides with removing the one). -/
def jsObjectDelete {α : Type} (l : List (String × α)) (key : String) :
    List (String × α) :=
  l.filter fun kv => !(kv.1 = key : Bool)

/-- Selection kind of the three-state selection value. -/
inductive SelKind where
  | node : SelKind
  | edge : SelKind
deriving DecidableEq, Repr

/-- The selection state of `App.tsx` (`{type, id, data} | null`); the
`data` payload (the rendered element's data bag) is not read by any
modelled handler and is omitted. -/
structure Selection where
  type : SelKind
  id : String
deriving DecidableEq, Repr

/-- The diagnostics result as consumed by `handleRunDiagnostics`: the two
counts read for the console message (integers in the server's JSON), plus
the remaining response fields, which the handler stores untouched. -/
structure Diagnostics where
  node_count : Option Int := none
  relation_count : Option Int := none
  extra : List (String × Json) := []

/-- The slice of `App` component state touched by the modelled handlers.
Console entries are kept as their message strings (the wall-clock
timestamp prefixed in `logConsole` is presentation-only).  `graphRef`
always mirrors `graph` (it is assigned together with `setGraph` in
`updateGraphState` and synced by an effect), so a single field models
both. -/
structure AppState where
  status : String := "loading"
  graphId : Option String := none
  graph : Option GraphData := none
  diagnostics : Option Diagnostics := none
  credibility : Option Json := none
  reasoning : Option Json := none
  reasonerResults : Option Json := none
  selection : Option Selection := none
  claimText : String := ""
  claimType : String := "fact"
  relationKind : String := "support"
  docName : String := ""
  docUrl : String := ""
  docType : String := "pdf"
  cards : List (String × Json) := []
  docs : List (String × Json) := []
  consoleEntries : List String := []
  isRunningDiagnostics : Bool := false
  diagnosticFocus : List String := []
  datasetError : String := ""

/-- One HTTP call issued by a handler, with the request data the client
sends. -/
inductive HttpCall where
  | updateGraph (graphId : String) (payload : GraphData) : HttpCall
  | runDiagnostics (graphId : String) : HttpCall
  | addSupportingDocument (graphId : String) (id name dtype url : String) : HttpCall
  | listSupportingDocuments (graphId : String) : HttpCall

/-- `logConsole` (`App.tsx` lines 221-226): prepends the message to the
console entries. -/
def logConsole (s : AppState) (message : String) : AppState :=
  { s with consoleEntries := message :: s.consoleEntries }

/-- Outcome of a handler: the state reached, the HTTP calls issued in
order, and `.error` when the handler propagated a rejection (no `catch`
on its path). -/
abbrev HandlerResult := AppState × List HttpCall × Except String Unit

/-- `updateGraphState` (`App.tsx` lines 642-649): no-op without a graph
id; otherwise the new graph is committed to local state (both `graphRef`
and `setGraph`) BEFORE `updateGraph` is awaited, so the local commit
stands even when the call fails; a failure is propagated to the caller. -/
def updateGraphState (s : AppState) (next : GraphData)
    (upd : Except String Unit) : HandlerResult :=
  match s.graphId with
  | none => (s, [], Except.ok ())
  | some gid =>
    ({ s with graph := some next }, [HttpCall.updateGraph gid next], upd)

/-- `handleAddClaim` (`App.tsx` lines 863-883): no-op without a cached
graph or when the (override or form) text trims to empty; otherwise the
new unit gets id `c<unit count + 1>` and is spread into the units map, the
claim-text field is cleared, and the full graph is re-sent. -/
def handleAddClaim (s : AppState) (textOverride : Option String)
    (upd : Except String Unit) : HandlerResult :=
  match s.graph with
  | none => (s, [], Except.ok ())
  | some current =>
    let textValue := textOverride.getD s.claimText
    if jsTrim textValue = "" then (s, [], Except.ok ())
    else
      let nextId := "c" ++ toString (current.units.length + 1)
      let nextGraph : GraphData :=
        { current with
          units := jsObjectSet current.units nextId
            { id := nextId, text := textValue, type := some s.claimType },
          relations := current.relations }
      updateGraphState { s with claimText := "" } nextGraph upd

/-- `handleAddRelation` (`App.tsx` lines 885-904): no-op without a cached
graph or when either endpoint id is missing/empty; otherwise the relation
is appended (kind from the form) and the full graph is re-sent. -/
def handleAddRelation (s : AppState) (src dst : Option String)
    (upd : Except String Unit) : HandlerResult :=
  match s.graph with
  | none => (s, [], Except.ok ())
  | some current =>
    let source := src.getD ""
    let target := dst.getD ""
    if source = "" || target = "" then (s, [], Except.ok ())
    else
      let nextGraph : GraphData :=
        { current with
          relations :=
            current.relations ++ [{ src := source, dst := target, kind := s.relationKind }],
          units := current.units }
      updateGraphState s nextGraph upd

/-- `handleRunDiagnostics` (`App.tsx` lines 906-922): no-op without a
graph id; otherwise sets the busy flag, logs a pre-request line, awaits
the diagnostics call (no `catch`: a failure propagates after the `finally`
resets the busy flag), and on success stores the result, clears the
diagnostic focus, and logs a summary line. -/
def handleRunDiagnostics (s : AppState) (res : Except String Diagnostics) :
    HandlerResult :=
  match s.graphId with
  | none => (s, [], Except.ok ())
  | some gid =>
    let s1 := logConsole { s with isRunningDiagnostics := true }
      "Diagnostics: request sent"
    match res with
    | Except.ok result =>
      let countStr : Option Int → String := fun c =>
        match c with
        | some n => toString n
        | none => "-"
      let s2 := { s1 with diagnostics := some result, diagnosticFocus := [] }
      let s3 := logConsole s2
        ("Diagnostics: " ++ countStr result.node_count ++ " nodes, " ++
          countStr result.relation_count ++ " relations")
      ({ s3 with isRunningDiagnostics := false },
        [HttpCall.runDiagnostics gid], Except.ok ())
    | Except.error e =>
      ({ s1 with isRunningDiagnostics := false },
        [HttpCall.runDiagnostics gid], Except.error e)

/-- `handleAddDocument` (`App.tsx` lines 1230-1243): no-op without a graph
id or when the name or URL field is empty; otherwise posts the document
(id `doc_<now>`), refetches the list, stores it and resets the form.  A
failure of either call propagates and skips the rest. -/
def handleAddDocument (s : AppState) (nowMs : Nat)
    (addRes : Except String Unit)
    (listRes : Except String (List (String × Json))) : HandlerResult :=
  match s.graphId with
  | none => (s, [], Except.ok ())
  | some gid =>
    if s.docName = "" || s.docUrl = "" then (s, [], Except.ok ())
    else
      let docId := "doc_" ++ toString nowMs
      let call1 := HttpCall.addSupportingDocument gid docId s.docName s.docType s.docUrl
      match addRes with
      | Except.error e => (s, [call1], Except.error e)
      | Except.ok _ =>
        match listRes with
        | Except.error e =>
          (s, [call1, HttpCall.listSupportingDocuments gid], Except.error e)
        | Except.ok next =>
          ({ s with docs := next, docName := "", docUrl := "", docType := "pdf" },
            [call1, HttpCall.listSupportingDocuments gid], Except.ok ())

/-- `handleDeleteClaim` (`App.tsx` lines 1306-1322): no-op unless a NODE
is selected and a graph is cached; otherwise the selected unit is deleted
from the units map, every relation with it as source or destination is
filtered out, the graph is re-sent through `updateGraphState`, and only
after that call resolves is the selection cleared (a failure propagates
before `setSelection(null)` runs). -/
def handleDeleteClaim (s : AppState) (upd : Except String Unit) :
    HandlerResult :=
  match s.graph, s.selection with
  | some current, some sel =>
    if sel.type = SelKind.node then
      let nextGraph : GraphData :=
        { current with
          units := jsObjectDelete current.units sel.id,
          relations := current.relations.filter fun rel =>
            !(rel.src = sel.id : Bool) && !(rel.dst = sel.id : Bool) }
      let r := updateGraphState s nextGraph upd
      match r.2.2 with
      | Except.ok _ => ({ r.1 with selection := none }, r.2.1, Except.ok ())
      | Except.error e => (r.1, r.2.1, Except.error e)
    else (s, [], Except.ok ())
  | _, _ => (s, [], Except.ok ())

/-- The outcome of one `fetch`: HTTP status, and the result of
`response.json()` (which can itself fail on a malformed body). -/
structure FetchResponse where
  status : Nat
  jsonResult : Except String Json

/-- `Response.ok` of the Fetch API: status in the inclusive range 200-299. -/
def FetchResponse.ok (r : FetchResponse) : Bool :=
  200 ≤ r.status && r.status ≤ 299

/-- `request` (`src/api/client.ts` lines 5-11): one `fetch` per call (no
retry), throwing `Request failed: <status>` on a non-ok status, otherwise
returning the body parsed as JSON.  Every exported client function
delegates to this wrapper.  The `path` argument only selects the URL; the
response to that single attempt is the `resp` argument. -/
def request (path : String) (resp : FetchResponse) : Except String Json :=
  if !resp.ok then Except.error ("Request failed: " ++ toString resp.status)
  else resp.jsonResult

/-- JSON encoding of a unit, as produced by `JSON.stringify` inside
`handleDownloadGraph` (absent optional fields are dropped). -/
def encodeUnit (u : UnitData) : Json :=
  Json.obj
    ([("id", Json.str u.id), ("text", Json.str u.text)] ++
      (match u.type with
       | some t => [("type", Json.str t)]
       | none => []) ++
      (match u.evidence_ids with
       | some l => [("evidence_ids", Json.arr (l.map Json.str))]
       | none => []) ++
      (match u.metadata with
       | some m => [("metadata", Json.obj m)]
       | none => []))

/-- JSON encoding of a relation under `JSON.stringify`. -/
def encodeRelation (r : Relation) : Json :=
  Json.obj
    ([("src", Json.str r.src), ("dst", Json.str r.dst),
      ("kind", Json.str r.kind)] ++
      (match r.weight with
       | some w => [("weight", Json.num w)]
       | none => []) ++
      (match r.metadata with
       | some m => [("metadata", Json.obj m)]
       | none => []))

/-- JSON encoding of the cached graph under `JSON.stringify`. -/
def encodeGraphData (g : GraphData) : Json :=
  Json.obj
    ([("units", Json.obj (g.units.map fun kv => (kv.1, encodeUnit kv.2))),
      ("relations", Json.arr (g.relations.map encodeRelation))] ++
      (match g.evidence_cards with
       | some m => [("evidence_cards", Json.obj m)]
       | none => []) ++
      (match g.supporting_documents with
       | some m => [("supporting_documents", Json.obj m)]
       | none => []) ++
      (match g.metadata with
       | some m => [("metadata", m)]
       | none => []))

/-- JSON encoding of a stored diagnostics result. -/
def encodeDiagnostics (d : Diagnostics) : Json :=
  Json.obj
    ((match d.node_count with
      | some n => [("node_count", Json.num (n : ℚ))]
      | none => []) ++
      (match d.relation_count with
       | some n => [("relation_count", Json.num (n : ℚ))]
       | none => []) ++
      d.extra)

/-- `handleDownloadGraph` (`App.tsx` lines 834-861): no-op without a
cached graph; otherwise serializes the tagged bundle envelope to a file
(returned here as the JSON tree that `JSON.stringify` writes and a later
`JSON.parse` reads back; stringify-then-parse is the identity on these
trees) and logs a console line. -/
def handleDownloadGraph (s : AppState) (exportedAt : String) :
    AppState × Option Json :=
  match s.graph with
  | none => (s, none)
  | some g =>
    let bundle := Json.obj
      [("kind", Json.str "arglib-graph-bundle"),
       ("version", Json.num 1),
       ("exported_at", Json.str exportedAt),
       ("graph_id",
         match s.graphId with
         | some gid => Json.str gid
         | none => Json.null),
       ("payload", encodeGraphData g),
       ("diagnostics",
         match s.diagnostics with
         | some d => encodeDiagnostics d
         | none => Json.null),
       ("credibility", s.credibility.getD Json.null),
       ("reasoning", s.reasoning.getD Json.null),
       ("reasoner_results", s.reasonerResults.getD Json.null),
       ("cards", Json.obj s.cards),
       ("docs", Json.obj s.docs)]
    (logConsole s "Exported graph bundle", some bundle)

/-- JS `x !== null && typeof x === "object"`. -/
def isObjOrArr : Json → Bool
  | Json.arr _ => true
  | Json.obj _ => true
  | _ => false

/-- The `payload?.units && payload?.relations` guard of
`extractGraphPayload`. -/
def unitsRelationsTruthy (payload : Json) : Bool :=
  truthyOpt (jget payload "units") && truthyOpt (jget payload "relations")

/-- `extractGraphPayload` (`App.tsx` lines 651-680): recognizes, in order,
a tagged bundle envelope, an untagged `payload` wrapper, a `graph`
wrapper, and a bare graph object; yields the (uncast) payload value and
the wrapper record when one was present. -/
def extractGraphPayload (raw : Json) : Option (Json × Option Json) :=
  if !(isObjOrArr raw) then none
  else
    (match jget raw "kind", jget raw "payload" with
     | some (Json.str k), some payload =>
       if k == "arglib-graph-bundle" && truthy payload &&
           unitsRelationsTruthy payload then
         some (payload, some raw)
       else none
     | _, _ => none) <|>
    (match jget raw "payload" with
     | some payload =>
       if truthy payload && unitsRelationsTruthy payload then
         some (payload, some raw)
       else none
     | none => none) <|>
    (match jget raw "graph" with
     | some gv =>
       if isObjOrArr gv && unitsRelationsTruthy gv then
         some (gv, some raw)
       else none
     | none => none) <|>
    (if unitsRelationsTruthy raw then some (raw, none) else none)

/-- String extractor for decoding. -/
def asStr : Json → Option String
  | Json.str s => some s
  | _ => none

/-- Object-fields extractor for decoding. -/
def asObjFields : Json → Option (List (String × Json))
  | Json.obj fields => some fields
  | _ => none

/-- All-or-nothing elementwise decoding of a list. -/
def decodeList {α β : Type} (f : α → Option β) : List α → Option (List β)
  | [] => some []
  | a :: rest =>
    match f a, decodeList f rest with
    | some b, some bs => some (b :: bs)
    | _, _ => none

/-- String-array extractor for decoding. -/
def asStrList (j : Json) : Option (List String) :=
  match j with
  | Json.arr elems => decodeList asStr elems
  | _ => none

/-- Reading a unit back out of its JSON encoding: the inverse of the
unchecked `as GraphData` cast, made explicit.  For values produced by
`encodeUnit` this always succeeds (proved below). -/
def decodeUnit (j : Json) : Option UnitData :=
  match jget j "id", jget j "text" with
  | some (Json.str uid), some (Json.str utext) =>
    some { id := uid, text := utext,
           type := (jget j "type").bind asStr,
           evidence_ids := (jget j "evidence_ids").bind asStrList,
           metadata := (jget j "metadata").bind asObjFields }
  | _, _ => none

/-- Reading a relation back out of its JSON encoding. -/
def decodeRelation (j : Json) : Option Relation :=
  match jget j "src", jget j "dst", jget j "kind" with
  | some (Json.str a), some (Json.str b), some (Json.str k) =>
    some { src := a, dst := b, kind := k,
           weight := (jget j "weight").bind fun v =>
             match v with
             | Json.num q => some q
             | _ => none,
           metadata := (jget j "metadata").bind asObjFields }
  | _, _, _ => none

/-- Decoding one entry of the units object. -/
def decodeUnitEntry (kv : String × Json) : Option (String × UnitData) :=
  (decodeUnit kv.2).map fun u => (kv.1, u)

/-- Reading a whole graph back out of its JSON encoding (the model of the
cast the import path performs on the extracted payload). -/
def decodeGraphData (j : Json) : Option GraphData :=
  match jget j "units", jget j "relations" with
  | some (Json.obj uf), some (Json.arr rels) =>
    match decodeList decodeUnitEntry uf, decodeList decodeRelation rels with
    | some units, some relations =>
      some { units := units, relations := relations,
             evidence_cards := (jget j "evidence_cards").bind asObjFields,
             supporting_documents := (jget j "supporting_documents").bind asObjFields,
             metadata := jget j "metadata" }
    | _, _ => none
  | _, _ => none

/-- Reading a diagnostics record back out of a bundle (the cast in
`applyImportedGraph`): total, keeping unrecognized fields. -/
def decodeDiagnostics (j : Json) : Diagnostics :=
  { node_count :=
      match jget j "node_count" with
      | some (Json.num q) => some q.num
      | _ => none,
    relation_count :=
      match jget j "relation_count" with
      | some (Json.num q) => some q.num
      | _ => none,
    extra :=
      match j with
      | Json.obj fields =>
        fields.filter fun kv =>
          kv.1 != "node_count" && kv.1 != "relation_count"
      | _ => [] }

/-- The bundle-slice restoration at the end of `applyImportedGraph`
(`App.tsx` lines 687-708).  The `cards`/`docs` slots are only restored
from object values (the app's own bundles always hold objects there). -/
def applyBundleSlices (s : AppState) (b : Json) : AppState :=
  let s1 :=
    match jget b "cards" with
    | some (Json.obj fields) => { s with cards := fields }
    | _ => s
  let s2 :=
    match jget b "docs" with
    | some (Json.obj fields) => { s1 with docs := fields }
    | _ => s1
  let s3 :=
    match jget b "diagnostics" with
    | some d =>
      if truthy d then { s2 with diagnostics := some (decodeDiagnostics d) }
      else s2
    | none => s2
  let s4 :=
    match jget b "credibility" with
    | some c => if truthy c then { s3 with credibility := some c } else s3
    | none => s3
  let s5 :=
    match jget b "reasoning" with
    | some r => if truthy r then { s4 with reasoning := some r } else s4
    | none => s4
  match jget b "reasoner_results" with
  | some r => if truthy r then { s5 with reasonerResults := some r } else s5
  | none => s5

/-- `applyImportedGraph` (`App.tsx` lines 682-708): commits the imported
graph through `updateGraphState` (optimistically, see there) and then, if
a wrapper bundle was present, restores the cached analysis slices from
it.  A failing update call propagates before the slices are touched. -/
def applyImportedGraph (s : AppState) (payload : GraphData)
    (bundle : Option Json) (upd : Except String Unit) : HandlerResult :=
  let r := updateGraphState s payload upd
  match r.2.2 with
  | Except.error e => (r.1, r.2.1, Except.error e)
  | Except.ok _ =>
    match bundle with
    | none => (r.1, r.2.1, Except.ok ())
    | some b => (applyBundleSlices r.1 b, r.2.1, Except.ok ())

/-- `handleImportGraphFile` (`App.tsx` lines 765-785): clears the dataset
error, parses the file text (`parsed` is the `JSON.parse` outcome),
extracts a graph payload, applies it, and logs; every failure on that path
is caught and stored in the dataset error field.  The unchecked TS cast of
the payload is modelled by `decodeGraphData`; a payload that passes the
truthiness guards but is not a well-formed graph encoding (impossible for
the app's own exports) is modelled as leaving the graph slice unchanged. -/
def handleImportGraphFile (s : AppState) (fileName : String)
    (parsed : Except String Json) (upd : Except String Unit) :
    AppState × List HttpCall :=
  let s0 := { s with datasetError := "" }
  match parsed with
  | Except.error e => ({ s0 with datasetError := e }, [])
  | Except.ok raw =>
    match extractGraphPayload raw with
    | none =>
      ({ s0 with
         datasetError := "File does not contain an ArgLib graph payload." }, [])
    | some (payloadJson, bundle) =>
      match decodeGraphData payloadJson with
      | none => (s0, [])
      | some g =>
        let r := applyImportedGraph s0 g bundle upd
        match r.2.2 with
        | Except.ok _ =>
          (logConsole r.1 ("Imported graph from " ++ fileName), r.2.1)
        | Except.error e => ({ r.1 with datasetError := e }, r.2.1)

/-- Node/edge discriminator for projected elements. -/
def Element.isNode : Element → Bool
  | Element.node _ => true
  | Element.edge _ => false

/-- Node/edge discriminator for projected elements. -/
def Element.isEdge : Element → Bool
  | Element.node _ => false
  | Element.edge _ => true

/-- Sample unit for concrete witnesses. -/
def sampleUnit1 : UnitData := { id := "c1", text := "A" }

/-- Sample unit for concrete witnesses. -/
def sampleUnit2 : UnitData := { id := "c2", text := "B" }

/-- Sample relation c1 → c2 for concrete witnesses. -/
def sampleRel12 : Relation := { src := "c1", dst := "c2", kind := "support" }

/-- Sample two-unit graph with one support relation. -/
def sampleGraph : GraphData :=
  { units := [("c1", sampleUnit1), ("c2", sampleUnit2)],
    relations := [sampleRel12] }

/-- Sample app state with the sample graph loaded and the node c1
selected. -/
def sampleStateNodeSel : AppState :=
  { graphId := some "g1", graph := some sampleGraph,
    selection := some ⟨SelKind.node, "c1"⟩ }

/-- Sample app state with the sample graph loaded and the edge e0
selected. -/
def sampleStateEdgeSel : AppState :=
  { graphId := some "g1", graph := some sampleGraph,
    selection := some ⟨SelKind.edge, "e0"⟩ }

/-- Sample app state with the sample graph loaded, nothing selected, and
claim text typed into the form. -/
def sampleStateNoSel : AppState :=
  { graphId := some "g1", graph := some sampleGraph,
    claimText := "new claim" }

/-- Sample app state with an empty cached graph and claim text typed into
the form. -/
def sampleStateEmpty : AppState :=
  { graphId := some "g1", graph := some { units := [], relations := [] },
    claimText := "new claim" }

/-! ## Theorems -/

/-- Deleting a key makes its lookup miss. -/
theorem lookupField_jsObjectDelete {α : Type} (l : List (String × α))
    (k : String) : lookupField (jsObjectDelete l k) k = none := by
  induction l with
  | nil => rfl
  | cons kv rest ih =>
    by_cases h : kv.1 = k
    · simpa [jsObjectDelete, List.filter_cons, h] using ih
    · simpa [jsObjectDelete, List.filter_cons, h, lookupField] using ih

/-- Spread-update makes the key's lookup hit the new value. -/
theorem lookupField_jsObjectSet {α : Type} (l : List (String × α))
    (k : String) (v : α) : lookupField (jsObjectSet l k v) k = some v := by
  induction l with
  | nil => simp [jsObjectSet, lookupField]
  | cons kv rest ih =>
    by_cases h : kv.1 = k
    · simp [jsObjectSet, h, lookupField]
    · simp [jsObjectSet, h, lookupField, ih]

/-- Spread-update overwrites an existing key in place and appends a fresh
one. -/
theorem length_jsObjectSet {α : Type} (l : List (String × α)) (k : String)
    (v : α) :
    (jsObjectSet l k v).length =
      if (lookupField l k).isSome then l.length else l.length + 1 := by
  induction l with
  | nil => simp [jsObjectSet, lookupField]
  | cons kv rest ih =>
    by_cases h : kv.1 = k
    · simp [jsObjectSet, h, lookupField]
    · simp only [jsObjectSet, h, if_false, lookupField, List.length_cons, ih]
      split_ifs with hS
    -- two branches with the same arithmetic shape
      · simp [h, hS]
      · simp [h, hS]

/-- C4: the element projection yields exactly one node descriptor per unit
of the graph and one edge descriptor per relation, so the projected node
count equals the unit count and the projected edge count equals the
relation count. -/
theorem claim_C4_elements_counts (g : GraphData) :
    (elements (some g)).countP Element.isNode = g.units.length ∧
    (elements (some g)).countP Element.isEdge = g.relations.length := by
  constructor <;>
    simp [elements, List.countP_append, List.countP_map, Function.comp_def,
      Element.isNode, Element.isEdge, List.countP_true, List.countP_false,
      List.enum_length]

/-- C7 (amended): the projected display height is computed from the
length of the unit's text (line count at 26 characters per line, 16 px per
line over a 30 px base, capped at 140), but the display width is the
constant 182 = min(300, max(160, 26·7)), independent of the text. -/
theorem claim_C7_amended_node_dimensions (u : UnitData) :
    (nodeFor u).width = 182 ∧
    (nodeFor u).height = min 140 (30 + (max 1 ((u.text.length + 25) / 26)) * 16) := by
  constructor <;> simp [nodeFor]

/-- C7 counterexample: the claim that two units whose texts have different
lengths can receive different display widths is false — the projected
width is the same for every pair of units (always 182), as witnessed by a
1-character and a 60-character text that get equal widths (while their
heights do differ). -/
theorem claim_C7_counterexample :
    (∀ u1 u2 : UnitData, (nodeFor u1).width = (nodeFor u2).width) ∧
    (nodeFor { id := "c1", text := "a" }).width = 182 ∧
    (nodeFor { id := "c2", text := String.mk (List.replicate 60 'x') }).width = 182 ∧
    ("a" : String).length ≠ (String.mk (List.replicate 60 'x')).length ∧
    (nodeFor { id := "c1", text := "a" }).height ≠
      (nodeFor { id := "c2", text := String.mk (List.replicate 60 'x') }).height := by
  refine ⟨fun u1 u2 => ?_, ?_, ?_, ?_, ?_⟩
  · simp [nodeFor]
  · simp [nodeFor]
  · simp [nodeFor]
  · decide
  · decide

/-- C10: the credibility score classification is total: each of the five
closed bands [-1,-0.6], [-0.59,-0.2], [-0.19,0.19], [0.2,0.59], [0.6,1.0]
receives its confidence label, and every input in none of the bands —
values inside the gaps, values outside [-1,1], and NaN — is classified
"Unknown". -/
theorem claim_C10_classification_total :
    (∀ q : ℚ, -1 ≤ q → q ≤ -6/10 →
      (getScoreClassification (JsNumber.val q)).label = "Very Low Confidence") ∧
    (∀ q : ℚ, -59/100 ≤ q → q ≤ -2/10 →
      (getScoreClassification (JsNumber.val q)).label = "Low Confidence") ∧
    (∀ q : ℚ, -19/100 ≤ q → q ≤ 19/100 →
      (getScoreClassification (JsNumber.val q)).label = "Neutral / Unknown") ∧
    (∀ q : ℚ, 2/10 ≤ q → q ≤ 59/100 →
      (getScoreClassification (JsNumber.val q)).label = "High Confidence") ∧
    (∀ q : ℚ, 6/10 ≤ q → q ≤ 1 →
      (getScoreClassification (JsNumber.val q)).label = "Very High Confidence") ∧
    (∀ q : ℚ, ¬(-1 ≤ q ∧ q ≤ -6/10) → ¬(-59/100 ≤ q ∧ q ≤ -2/10) →
      ¬(-19/100 ≤ q ∧ q ≤ 19/100) → ¬(2/10 ≤ q ∧ q ≤ 59/100) →
      ¬(6/10 ≤ q ∧ q ≤ 1) →
      (getScoreClassification (JsNumber.val q)).label = "Unknown") ∧
    (getScoreClassification JsNumber.nan).label = "Unknown" := by
  refine ⟨?_, ?_, ?_, ?_, ?_, ?_, by decide⟩
  · intro q h1 h2
    simp only [getScoreClassification, jsGe, jsLe, Bool.and_eq_true,
      decide_eq_true_eq]
    split_ifs with ha hb hc hd he
    · rfl
    all_goals exact absurd ⟨h1, h2⟩ ha
  · intro q h1 h2
    simp only [getScoreClassification, jsGe, jsLe, Bool.and_eq_true,
      decide_eq_true_eq]
    split_ifs with ha hb hc hd he
    · exfalso; linarith [ha.2]
    · rfl
    all_goals exact absurd ⟨h1, h2⟩ hb
  · intro q h1 h2
    simp only [getScoreClassification, jsGe, jsLe, Bool.and_eq_true,
      decide_eq_true_eq]
    split_ifs with ha hb hc hd he
    · exfalso; linarith [ha.2]
    · exfalso; linarith [hb.2]
    · rfl
    all_goals exact absurd ⟨h1, h2⟩ hc
  · intro q h1 h2
    simp only [getScoreClassification, jsGe, jsLe, Bool.and_eq_true,
      decide_eq_true_eq]
    split_ifs with ha hb hc hd he
    · exfalso; linarith [ha.2]
    · exfalso; linarith [hb.2]
    · exfalso; linarith [hc.2]
    · rfl
    all_goals exact absurd ⟨h1, h2⟩ hd
  · intro q h1 h2
    simp only [getScoreClassification, jsGe, jsLe, Bool.and_eq_true,
      decide_eq_true_eq]
    split_ifs with ha hb hc hd he
    · exfalso; linarith [ha.2]
    · exfalso; linarith [hb.2]
    · exfalso; linarith [hc.2]
    · exfalso; linarith [hd.2]
    · rfl
    · exact absurd ⟨h1, h2⟩ he
  · intro q n1 n2 n3 n4 n5
    simp only [getScoreClassification, jsGe, jsLe, Bool.and_eq_true,
      decide_eq_true_eq]
    split_ifs
    rfl

/-- Witness for C10 at concrete scores: one point per band, one point in a
gap, and one point outside the range. -/
theorem claim_C10_witness :
    (getScoreClassification (JsNumber.val (-8/10))).label = "Very Low Confidence" ∧
    (getScoreClassification (JsNumber.val (-3/10))).label = "Low Confidence" ∧
    (getScoreClassification (JsNumber.val 0)).label = "Neutral / Unknown" ∧
    (getScoreClassification (JsNumber.val (3/10))).label = "High Confidence" ∧
    (getScoreClassification (JsNumber.val (8/10))).label = "Very High Confidence" ∧
    (getScoreClassification (JsNumber.val (-595/1000))).label = "Unknown" ∧
    (getScoreClassification (JsNumber.val 2)).label = "Unknown" :=
  ⟨claim_C10_classification_total.1 (-8/10) (by norm_num) (by norm_num),
   claim_C10_classification_total.2.1 (-3/10) (by norm_num) (by norm_num),
   claim_C10_classification_total.2.2.1 0 (by norm_num) (by norm_num),
   claim_C10_classification_total.2.2.2.1 (3/10) (by norm_num) (by norm_num),
   claim_C10_classification_total.2.2.2.2.1 (8/10) (by norm_num) (by norm_num),
   claim_C10_classification_total.2.2.2.2.2.1 (-595/1000)
     (by norm_num) (by norm_num) (by norm_num) (by norm_num) (by norm_num),
   claim_C10_classification_total.2.2.2.2.2.1 2
     (by norm_num) (by norm_num) (by norm_num) (by norm_num) (by norm_num)⟩

/-- C6: the HTTP client wrapper makes exactly one attempt per call (it is
a function of the single response to its one `fetch`): on a non-success
status it throws an error whose message carries the numeric status code,
otherwise it returns the response body parsed as JSON.  Every exported
client function delegates to this wrapper. -/
theorem claim_C6_request_contract (path : String) (resp : FetchResponse) :
    (resp.ok = false →
      ∃ msg, request path resp = Except.error msg ∧
        msg = "Request failed: " ++ toString resp.status ∧
        ∃ pre, msg = pre ++ toString resp.status) ∧
    (resp.ok = true → request path resp = resp.jsonResult) := by
  constructor
  · intro h
    refine ⟨"Request failed: " ++ toString resp.status, ?_, rfl,
      "Request failed: ", rfl⟩
    simp [request, h]
  · intro h
    simp [request, h]

/-- Witness for C6: a 500 response throws with the code in the message, a
204 response returns its parsed body. -/
theorem claim_C6_request_witness :
    (FetchResponse.ok ⟨500, Except.ok Json.null⟩ = false) ∧
    (∃ msg, request "/health" ⟨500, Except.ok Json.null⟩ = Except.error msg ∧
      msg = "Request failed: " ++ toString (500 : Nat) ∧
      ∃ pre, msg = pre ++ toString (500 : Nat)) ∧
    (FetchResponse.ok ⟨204, Except.ok Json.null⟩ = true) ∧
    request "/health" ⟨204, Except.ok Json.null⟩ = Except.ok Json.null :=
  ⟨by decide,
   (claim_C6_request_contract "/health" ⟨500, Except.ok Json.null⟩).1 (by decide),
   by decide,
   (claim_C6_request_contract "/health" ⟨204, Except.ok Json.null⟩).2 (by decide)⟩

/-- C2: after the delete-claim action on a selected node, the unit is
gone from the units map and no relation with it as source or destination
survives in the local graph (this holds whether or not the re-send
succeeds, because the graph is committed locally before the call). -/
theorem claim_C2_delete_removes_unit_and_edges (s : AppState)
    (current : GraphData) (sel : Selection) (gid : String)
    (upd : Except String Unit)
    (hg : s.graph = some current) (hsel : s.selection = some sel)
    (hnode : sel.type = SelKind.node) (hgid : s.graphId = some gid) :
    ∃ g2 : GraphData,
      (handleDeleteClaim s upd).1.graph = some g2 ∧
      lookupField g2.units sel.id = none ∧
      ∀ rel ∈ g2.relations, rel.src ≠ sel.id ∧ rel.dst ≠ sel.id := by
  refine ⟨{ current with
            units := jsObjectDelete current.units sel.id,
            relations := current.relations.filter fun rel =>
              !(rel.src = sel.id : Bool) && !(rel.dst = sel.id : Bool) },
    ?_, lookupField_jsObjectDelete current.units sel.id, ?_⟩
  · simp only [handleDeleteClaim, hg, hsel, hnode, if_true,
      updateGraphState, hgid]
    cases upd <;> simp
  · intro rel hrel
    have hmem := List.mem_filter.mp hrel
    have hp := hmem.2
    simp only [Bool.and_eq_true, Bool.not_eq_true', decide_eq_false_iff_not] at hp
    exact hp

/-- Witness for C2: deleting the selected node c1 of the sample graph
removes the unit and the incident support relation. -/
theorem claim_C2_witness :
    ∃ g2 : GraphData,
      (handleDeleteClaim sampleStateNodeSel (Except.ok ())).1.graph = some g2 ∧
      lookupField g2.units "c1" = none ∧
      ∀ rel ∈ g2.relations, rel.src ≠ "c1" ∧ rel.dst ≠ "c1" :=
  claim_C2_delete_removes_unit_and_edges sampleStateNodeSel sampleGraph
    ⟨SelKind.node, "c1"⟩ "g1" (Except.ok ()) rfl rfl rfl rfl

/-- C3 (amended): invoking delete-claim while a NODE is selected clears
the selection (once the re-send call succeeds); but while an EDGE is
selected the delete-claim action is a complete no-op — it issues no call
and leaves all state, in particular the selection, unchanged. -/
theorem claim_C3_amended_selection :
    (∀ (s : AppState) (sel : Selection) (current : GraphData) (gid : String),
      s.selection = some sel → sel.type = SelKind.node →
      s.graph = some current → s.graphId = some gid →
      (handleDeleteClaim s (Except.ok ())).1.selection = none) ∧
    (∀ (s : AppState) (sel : Selection) (upd : Except String Unit),
      s.selection = some sel → sel.type = SelKind.edge →
      handleDeleteClaim s upd = (s, [], Except.ok ())) := by
  constructor
  · intro s sel current gid hsel hnode hg hgid
    simp [handleDeleteClaim, hg, hsel, hnode, updateGraphState, hgid]
  · intro s sel upd hsel hedge
    cases hG : s.graph <;> simp [handleDeleteClaim, hG, hsel, hedge]

/-- C3 counterexample: with an edge selected, invoking delete-claim does
NOT clear the selection — the handler returns early and the edge stays
selected, contradicting the claim that the selection is set to none. -/
theorem claim_C3_counterexample :
    sampleStateEdgeSel.selection = some ⟨SelKind.edge, "e0"⟩ ∧
    (handleDeleteClaim sampleStateEdgeSel (Except.ok ())).1.selection =
      some ⟨SelKind.edge, "e0"⟩ ∧
    ¬((handleDeleteClaim sampleStateEdgeSel (Except.ok ())).1.selection = none) :=
  ⟨rfl, rfl, by decide⟩

/-- Witness for C3 (amended): node deletion on the sample state clears
the selection; delete-claim with the sample edge selection is the
identity. -/
theorem claim_C3_witness :
    (handleDeleteClaim sampleStateNodeSel (Except.ok ())).1.selection = none ∧
    handleDeleteClaim sampleStateEdgeSel (Except.error "boom") =
      (sampleStateEdgeSel, [], Except.ok ()) :=
  ⟨claim_C3_amended_selection.1 sampleStateNodeSel ⟨SelKind.node, "c1"⟩
      sampleGraph "g1" rfl rfl rfl rfl,
   claim_C3_amended_selection.2 sampleStateEdgeSel ⟨SelKind.edge, "e0"⟩
      (Except.error "boom") rfl rfl⟩

/-- C8: an action invoked with an empty required local input — add-claim
with whitespace-only text, add-relation with a missing endpoint,
add-document with an empty name or URL — issues no HTTP call, leaves the
whole local state unchanged, and raises no error. -/
theorem claim_C8_empty_input_noop :
    (∀ (s : AppState) (textOverride : Option String) (upd : Except String Unit),
      jsTrim (textOverride.getD s.claimText) = "" →
      handleAddClaim s textOverride upd = (s, [], Except.ok ())) ∧
    (∀ (s : AppState) (src dst : Option String) (upd : Except String Unit),
      src.getD "" = "" ∨ dst.getD "" = "" →
      handleAddRelation s src dst upd = (s, [], Except.ok ())) ∧
    (∀ (s : AppState) (nowMs : Nat) (addRes : Except String Unit)
        (listRes : Except String (List (String × Json))),
      s.docName = "" ∨ s.docUrl = "" →
      handleAddDocument s nowMs addRes listRes = (s, [], Except.ok ())) := by
  refine ⟨?_, ?_, ?_⟩
  · intro s textOverride upd h
    cases hG : s.graph <;> simp [handleAddClaim, hG, h]
  · intro s src dst upd h
    cases hG : s.graph <;> rcases h with h | h <;>
      simp [handleAddRelation, hG, h]
  · intro s nowMs addRes listRes h
    cases hid : s.graphId <;> rcases h with h | h <;>
      simp [handleAddDocument, hid, h]

/-- Witness for C8 at concrete states: whitespace-only claim text, a
missing relation source, and an empty document name each no-op. -/
theorem claim_C8_witness :
    handleAddClaim sampleStateNodeSel (some "   ") (Except.error "down") =
      (sampleStateNodeSel, [], Except.ok ()) ∧
    handleAddRelation sampleStateNodeSel none (some "c2") (Except.error "down") =
      (sampleStateNodeSel, [], Except.ok ()) ∧
    handleAddDocument sampleStateNodeSel 0 (Except.error "down")
        (Except.error "down") =
      (sampleStateNodeSel, [], Except.ok ()) :=
  ⟨claim_C8_empty_input_noop.1 sampleStateNodeSel (some "   ")
      (Except.error "down") (by decide),
   claim_C8_empty_input_noop.2.1 sampleStateNodeSel none (some "c2")
      (Except.error "down") (Or.inl rfl),
   claim_C8_empty_input_noop.2.2 sampleStateNodeSel 0 (Except.error "down")
      (Except.error "down") (Or.inl rfl)⟩

/-- C9: add-claim with non-empty text inserts a unit under the id
`c<unit count + 1>` with the typed text and selected type, leaves the
relations unchanged, and — because the id is derived from the count, not
from freshness — overwrites an existing unit with that id in place
(length preserved) instead of choosing a fresh id; only a genuinely new
id grows the map by one. -/
theorem claim_C9_add_claim_positional_id (s : AppState) (current : GraphData)
    (gid : String) (textOverride : Option String) (upd : Except String Unit)
    (hg : s.graph = some current) (hgid : s.graphId = some gid)
    (ht : jsTrim (textOverride.getD s.claimText) ≠ "") :
    ∃ g2 : GraphData,
      (handleAddClaim s textOverride upd).1.graph = some g2 ∧
      g2.relations = current.relations ∧
      lookupField g2.units ("c" ++ toString (current.units.length + 1)) =
        some { id := "c" ++ toString (current.units.length + 1),
               text := textOverride.getD s.claimText,
               type := some s.claimType } ∧
      ((lookupField current.units
          ("c" ++ toString (current.units.length + 1))).isSome →
        g2.units.length = current.units.length) ∧
      (lookupField current.units
          ("c" ++ toString (current.units.length + 1)) = none →
        g2.units.length = current.units.length + 1) := by
  refine ⟨{ current with
            units := jsObjectSet current.units
              ("c" ++ toString (current.units.length + 1))
              { id := "c" ++ toString (current.units.length + 1),
                text := textOverride.getD s.claimText,
                type := some s.claimType },
            relations := current.relations }, ?_, rfl,
    lookupField_jsObjectSet _ _ _, ?_, ?_⟩
  · simp only [handleAddClaim, hg, ht, if_false, updateGraphState, hgid]
  · intro hS
    rw [length_jsObjectSet]
    simp [hS]
  · intro hN
    rw [length_jsObjectSet]
    simp [hN]

/-- Witness for C9: adding a claim to the two-unit sample graph inserts
it as c3 and keeps the single relation. -/
theorem claim_C9_witness :
    ∃ g2 : GraphData,
      (handleAddClaim sampleStateNoSel none (Except.ok ())).1.graph = some g2 ∧
      g2.relations = sampleGraph.relations ∧
      lookupField g2.units ("c" ++ toString (sampleGraph.units.length + 1)) =
        some { id := "c" ++ toString (sampleGraph.units.length + 1),
               text := "new claim", type := some "fact" } ∧
      ((lookupField sampleGraph.units
          ("c" ++ toString (sampleGraph.units.length + 1))).isSome →
        g2.units.length = sampleGraph.units.length) ∧
      (lookupField sampleGraph.units
          ("c" ++ toString (sampleGraph.units.length + 1)) = none →
        g2.units.length = sampleGraph.units.length + 1) :=
  claim_C9_add_claim_positional_id sampleStateNoSel sampleGraph "g1" none
    (Except.ok ()) rfl rfl (by decide)

/-- C1 counterexample: a user action whose HTTP call fails does NOT leave
prior local state unchanged-except-for-an-error-field.  Adding a claim
when the update call fails with a 500 leaves the cached graph already
replaced by the optimistically committed new graph (one unit instead of
zero) and the claim-text field already cleared — neither is an error
field. -/
theorem claim_C1_counterexample :
    (handleAddClaim sampleStateEmpty none
        (Except.error "Request failed: 500")).1.graph =
      some { units := [("c1", { id := "c1", text := "new claim",
                                type := some "fact" })],
             relations := [] } ∧
    sampleStateEmpty.graph = some { units := [], relations := [] } ∧
    ((handleAddClaim sampleStateEmpty none
        (Except.error "Request failed: 500")).1.graph.map
      fun g => g.units.length) = some 1 ∧
    (sampleStateEmpty.graph.map fun g => g.units.length) = some 0 ∧
    (handleAddClaim sampleStateEmpty none
        (Except.error "Request failed: 500")).1.claimText = "" ∧
    sampleStateEmpty.claimText = "new claim" :=
  ⟨rfl, rfl, rfl, rfl, rfl, rfl⟩

/-- C1 (amended): when an HTTP call fails, the response-dependent state is
unchanged and busy flags are restored, but the failure is not isolated to
an error field: `updateGraphState` commits the new graph locally BEFORE
the call, so the optimistic graph persists on failure (and nothing else
changes); `handleRunDiagnostics` logs its console line before the request,
so on failure the console log has grown by exactly that entry, the busy
flag is false, no error field is set, and diagnostics, credibility, the
graph and all other slices are untouched. -/
theorem claim_C1_amended_failure_effects :
    (∀ (s : AppState) (next : GraphData) (gid : String) (e : String),
      s.graphId = some gid →
      updateGraphState s next (Except.error e) =
        ({ s with graph := some next }, [HttpCall.updateGraph gid next],
          Except.error e)) ∧
    (∀ (s : AppState) (gid : String) (e : String),
      s.graphId = some gid →
      handleRunDiagnostics s (Except.error e) =
        ({ s with
            consoleEntries := "Diagnostics: request sent" :: s.consoleEntries,
            isRunningDiagnostics := false },
          [HttpCall.runDiagnostics gid], Except.error e)) := by
  constructor
  · intro s next gid e h
    simp [updateGraphState, h]
  · intro s gid e h
    simp [handleRunDiagnostics, h, logConsole]

/-- Witness for C1 (amended) at concrete states. -/
theorem claim_C1_witness :
    updateGraphState sampleStateEmpty sampleGraph (Except.error "boom") =
      ({ sampleStateEmpty with graph := some sampleGraph },
        [HttpCall.updateGraph "g1" sampleGraph], Except.error "boom") ∧
    handleRunDiagnostics sampleStateEmpty (Except.error "boom") =
      ({ sampleStateEmpty with
          consoleEntries :=
            "Diagnostics: request sent" :: sampleStateEmpty.consoleEntries,
          isRunningDiagnostics := false },
        [HttpCall.runDiagnostics "g1"], Except.error "boom") :=
  ⟨claim_C1_amended_failure_effects.1 sampleStateEmpty sampleGraph "g1"
      "boom" rfl,
   claim_C1_amended_failure_effects.2 sampleStateEmpty "g1" "boom" rfl⟩

/-- Decoding an encoded string list succeeds. -/
theorem decodeList_map_str (l : List String) :
    decodeList asStr (l.map Json.str) = some l := by
  induction l with
  | nil => rfl
  | cons a rest ih => simp [decodeList, asStr, ih]

/-- Decoding an encoded unit gives the unit back. -/
theorem decodeUnit_encodeUnit (u : UnitData) :
    decodeUnit (encodeUnit u) = some u := by
  rcases u with ⟨uid, utext, utype, uev, umeta⟩
  rcases utype with _ | t <;> rcases uev with _ | ev <;> rcases umeta with _ | m <;>
    simp [encodeUnit, decodeUnit, jget, lookupField, asStr, asObjFields,
      asStrList, decodeList_map_str]

/-- Decoding an encoded relation gives the relation back. -/
theorem decodeRelation_encodeRelation (r : Relation) :
    decodeRelation (encodeRelation r) = some r := by
  rcases r with ⟨a, b, k, w, m⟩
  rcases w with _ | q <;> rcases m with _ | meta <;>
    simp [encodeRelation, decodeRelation, jget, lookupField, asObjFields]

/-- Decoding the encoded units object gives the entry list back. -/
theorem decodeList_units (units : List (String × UnitData)) :
    decodeList decodeUnitEntry (units.map fun kv => (kv.1, encodeUnit kv.2)) =
      some units := by
  induction units with
  | nil => rfl
  | cons kv rest ih =>
    simp [decodeList, decodeUnitEntry, decodeUnit_encodeUnit, ih]

/-- Decoding the encoded relations array gives the relation list back. -/
theorem decodeList_relations (rels : List Relation) :
    decodeList decodeRelation (rels.map encodeRelation) = some rels := by
  induction rels with
  | nil => rfl
  | cons r rest ih =>
    simp [decodeList, decodeRelation_encodeRelation, ih]

/-- Decoding an encoded graph gives the graph back: the unchecked cast on
the import path is lossless on the app's own encodings. -/
theorem decodeGraphData_encodeGraphData (g : GraphData) :
    decodeGraphData (encodeGraphData g) = some g := by
  rcases g with ⟨units, rels, ec, sd, md⟩
  rcases ec with _ | e <;> rcases sd with _ | d <;> rcases md with _ | m <;>
    simp [encodeGraphData, decodeGraphData, jget, lookupField, asObjFields,
      decodeList_units, decodeList_relations]

/-- The exported bundle envelope is recognized by the first branch of
`extractGraphPayload`: the payload and the whole record come back. -/
theorem extractGraphPayload_download_bundle (g : GraphData)
    (exportedAt : String) (gidJson diagJson credJson reasJson reasRJson : Json)
    (cards docs : List (String × Json)) :
    extractGraphPayload (Json.obj
      [("kind", Json.str "arglib-graph-bundle"),
       ("version", Json.num 1),
       ("exported_at", Json.str exportedAt),
       ("graph_id", gidJson),
       ("payload", encodeGraphData g),
       ("diagnostics", diagJson),
       ("credibility", credJson),
       ("reasoning", reasJson),
       ("reasoner_results", reasRJson),
       ("cards", Json.obj cards),
       ("docs", Json.obj docs)]) =
      some (encodeGraphData g, some (Json.obj
        [("kind", Json.str "arglib-graph-bundle"),
         ("version", Json.num 1),
         ("exported_at", Json.str exportedAt),
         ("graph_id", gidJson),
         ("payload", encodeGraphData g),
         ("diagnostics", diagJson),
         ("credibility", credJson),
         ("reasoning", reasJson),
         ("reasoner_results", reasRJson),
         ("cards", Json.obj cards),
         ("docs", Json.obj docs)])) := by
  simp [extractGraphPayload, encodeGraphData, isObjOrArr, jget, lookupField,
    truthy, truthyOpt, unitsRelationsTruthy]

/-- Restoring bundle slices never touches the cached graph. -/
theorem applyBundleSlices_graph (s : AppState) (b : Json) :
    (applyBundleSlices s b).graph = s.graph := by
  unfold applyBundleSlices
  repeat' split
  all_goals rfl

/-- C5: exporting the current graph as a tagged bundle and importing that
bundle through the import path yields a cached graph with the same units
and relations (round-trip identity on unit/relation content). -/
theorem claim_C5_export_import_roundtrip (s : AppState) (g : GraphData)
    (gid : String) (exportedAt fileName : String)
    (hg : s.graph = some g) (hgid : s.graphId = some gid) :
    ∃ bundle : Json,
      (handleDownloadGraph s exportedAt).2 = some bundle ∧
      ∃ g2 : GraphData,
        (handleImportGraphFile (handleDownloadGraph s exportedAt).1 fileName
            (Except.ok bundle) (Except.ok ())).1.graph = some g2 ∧
        g2.units = g.units ∧ g2.relations = g.relations := by
  simp only [handleDownloadGraph, hg, hgid]
  refine ⟨_, rfl, g, ?_, rfl, rfl⟩
  simp only [handleImportGraphFile, extractGraphPayload_download_bundle,
    decodeGraphData_encodeGraphData, applyImportedGraph, updateGraphState,
    logConsole, hgid, applyBundleSlices_graph]

/-- Witness for C5: the sample state's graph survives the export/import
round trip. -/
theorem claim_C5_witness :
    ∃ bundle : Json,
      (handleDownloadGraph sampleStateNoSel "2026-10-12T00:00:00Z").2 =
        some bundle ∧
      ∃ g2 : GraphData,
        (handleImportGraphFile
            (handleDownloadGraph sampleStateNoSel "2026-10-12T00:00:00Z").1
            "bundle.json" (Except.ok bundle) (Except.ok ())).1.graph =
          some g2 ∧
        g2.units = sampleGraph.units ∧ g2.relations = sampleGraph.relations :=
  claim_C5_export_import_roundtrip sampleStateNoSel sampleGraph "g1"
    "2026-10-12T00:00:00Z" "bundle.json" rfl rfl

end ArglibUI
